import Mathlib

/-!
Verification of `src/binette/src/db.rs`: the file-identity and
schema-versioning gate placed in front of a SQLite database file.

The SQLite engine is an external collaborator; it is modelled by the logical
content of the on-disk file (the two persistent header slots, the
`sqlite_schema` catalog, and the rows of the `app_metadata` table), together
with explicit injection points for engine failures at each call site.
Operations are state-passing: each returns its result together with the
post-state of the on-disk file, and `try_open` additionally returns the trace
of engine operations it performed, so that frame and ordering properties can
be stated.
-/

/-- The App ID constant from the source: `const SQLITE_APP_ID: i32 = 0x27011990`. -/
def SQLITE_APP_ID : Int := 0x27011990

/-- The schema version constant from the source:
`const SQLITE_USER_VERSION: u32 = 1`. -/
def SQLITE_USER_VERSION : Nat := 1

/-- Modelled from the spec: the semantic version string of the creating build,
`env!("CARGO_PKG_VERSION")` in the source. The manifest defining it is not
under `src/`; the spec only calls it a "semantic version string of the
creating application build", and its exact value is irrelevant to the
identity/version protocol. -/
def CARGO_PKG_VERSION : String := "0.1.0"

/-- SQLite primary result codes, abstracted to what the module inspects:
`NotADatabase` is `rusqlite::ffi::ErrorCode::NotADatabase` (SQLITE_NOTADB),
the one code `into_invalid_or_read_failed` singles out; every other code is
collapsed into `OtherCode`. -/
inductive ErrorCode where
  | NotADatabase
  | OtherCode (n : Nat)
deriving DecidableEq, Repr

/-- A `rusqlite::Error`, abstracted to the only attribute the module reads:
`sqlite_error_code()`, which is `none` for failures that carry no SQLite
code (for example a failed column type conversion). -/
structure SqliteError where
  code : Option ErrorCode
deriving DecidableEq, Repr

/-- The error enum `DbError` of the module, with `PathBuf` rendered as a
string. -/
inductive DbError where
  | OpenFailed (path : String) (cause : SqliteError)
  | ReadFailed (cause : SqliteError)
  | WriteFailed (cause : SqliteError)
  | InvalidFileError
deriving DecidableEq, Repr

/-- `IntoResult::into_open_failed`: wrap any engine error as `OpenFailed`,
keeping the path. -/
def into_open_failed {T : Type} (r : Except SqliteError T) (p : String) :
    Except DbError T :=
  match r with
  | .error e => .error (.OpenFailed p e)
  | .ok v => .ok v

/-- `IntoResult::into_read_failed`: wrap any engine error as `ReadFailed`. -/
def into_read_failed {T : Type} (r : Except SqliteError T) : Except DbError T :=
  match r with
  | .error e => .error (.ReadFailed e)
  | .ok v => .ok v

/-- `IntoResult::into_write_failed`: wrap any engine error as `WriteFailed`. -/
def into_write_failed {T : Type} (r : Except SqliteError T) : Except DbError T :=
  match r with
  | .error e => .error (.WriteFailed e)
  | .ok v => .ok v

/-- `IntoResult::into_invalid_or_read_failed`: an engine error whose SQLite
code is `NotADatabase` becomes `InvalidFileError`; anything else goes through
`into_read_failed`. -/
def into_invalid_or_read_failed {T : Type} (r : Except SqliteError T) :
    Except DbError T :=
  match r with
  | .error e =>
    if e.code = some ErrorCode.NotADatabase then .error .InvalidFileError
    else into_read_failed r
  | .ok _ => into_read_failed r

/-- One row of the `app_metadata` table: the creating build's version string
and the nullable "upgraded from" version string. -/
structure MetaRow where
  version : String
  upgraded_from : Option String
deriving DecidableEq, Repr

/-- Logical content of a well-formed SQLite container, restricted to what the
module touches: the `application_id` header slot (a signed 32-bit value), the
`user_version` header slot (a 32-bit value, read back by the engine as a
signed integer), the object names of the `sqlite_schema` catalog, and the rows
of the `app_metadata` table. -/
structure DbState where
  application_id : Int
  user_version : Int
  tables : List String
  app_metadata : List MetaRow
deriving DecidableEq, Repr

/-- An on-disk file: either bytes that are not a SQLite container at all
(every engine read of it fails with `NotADatabase`), or a container holding
logical content `db`. -/
inductive File where
  | notADatabase
  | container (db : DbState)
deriving DecidableEq, Repr

/-- A brand-new or empty file is a container with no catalog objects and both
header slots at their zero defaults. -/
def emptyDb : DbState :=
  { application_id := 0, user_version := 0, tables := [], app_metadata := [] }

/-- `Connection::open` with the default flags creates the file when the path
has none; the engine treats an absent or empty file as an empty container. -/
def open_or_create : Option File → File
  | none => .container emptyDb
  | some f => f

/-- Failure-injection points for the engine calls made by `try_open`: each
field is `some e` when the corresponding engine call fails with `e`, and
`none` when it behaves normally. -/
structure Env where
  open_err : Option SqliteError
  app_id_err : Option SqliteError
  catalog_err : Option SqliteError
  begin_err : Option SqliteError
  exec_err : Option SqliteError
  commit_err : Option SqliteError
deriving DecidableEq, Repr

/-- The environment in which every engine call behaves normally. -/
def benign : Env :=
  { open_err := none, app_id_err := none, catalog_err := none,
    begin_err := none, exec_err := none, commit_err := none }

/-- The engine operations `try_open` can perform, in the order the source
calls them. -/
inductive Op where
  | openOp
  | readAppId
  | readCatalog
  | beginTxn
  | execBatch
  | commitTxn
deriving DecidableEq, Repr

/-- Whether an engine operation belongs to the write path (the transaction),
as opposed to the read-only open and header/catalog queries. -/
def Op.isWrite : Op → Bool
  | .beginTxn => true
  | .execBatch => true
  | .commitTxn => true
  | _ => false

/-- The read of `SELECT application_id FROM pragma_application_id()`: on a
non-container file the engine fails with `NotADatabase`; on a container it
yields the header slot, unless a failure is injected. -/
def query_application_id (env : Env) (f : File) : Except SqliteError Int :=
  match f with
  | .notADatabase => .error { code := some .NotADatabase }
  | .container db =>
    match env.app_id_err with
    | some e => .error e
    | none => .ok db.application_id

/-- The check `SELECT tbl_name FROM sqlite_schema LIMIT 1` followed by
`exists`: on a non-container file the engine fails with `NotADatabase`; on a
container it reports whether any catalog object exists, unless a failure is
injected. -/
def catalog_has_object (env : Env) (f : File) : Except SqliteError Bool :=
  match f with
  | .notADatabase => .error { code := some .NotADatabase }
  | .container db =>
    match env.catalog_err with
    | some e => .error e
    | none => .ok (!db.tables.isEmpty)

/-- Semantic effect on the file content of executing the statement batch
returned by `schema()`: set the `application_id` header to `SQLITE_APP_ID`,
create the `app_metadata` table, insert the single row
`(CARGO_PKG_VERSION, NULL)`, and set the `user_version` header to
`SQLITE_USER_VERSION`. -/
def schema_effect (db : DbState) : DbState :=
  { db with
    application_id := SQLITE_APP_ID,
    tables := db.tables ++ ["app_metadata"],
    app_metadata := db.app_metadata ++
      [{ version := CARGO_PKG_VERSION, upgraded_from := none }],
    user_version := (SQLITE_USER_VERSION : Int) }

/-- `transaction.execute_batch(schema())`: fails on a non-container file or
when a failure is injected; otherwise yields the pending post-state of the
batch. -/
def execute_batch_schema (env : Env) (f : File) : Except SqliteError File :=
  match f with
  | .notADatabase => .error { code := some .NotADatabase }
  | .container db =>
    match env.exec_err with
    | some e => .error e
    | none => .ok (.container (schema_effect db))

/-- The `AppFile` handle: its connection gives access to the current on-disk
file. -/
structure AppFile where
  connection : File
deriving DecidableEq, Repr

/-- `AppFile::try_open`: open or create the file at `path`, read and classify
the `application_id` header, check the catalog for any existing object, and
when the file is new run the initialization batch inside one transaction.
Returns the call's result together with the post-state of the on-disk file
and the trace of engine operations performed.  A transaction that fails to
execute or commit is rolled back by the engine, so on every error path the
post-state is the file as it was after the open step. -/
def try_open (env : Env) (path : String) (pre : Option File) :
    Except DbError AppFile × Option File × List Op :=
  match env.open_err with
  | some e => (.error (.OpenFailed path e), pre, [.openOp])
  | none =>
    let f := open_or_create pre
    match into_invalid_or_read_failed (query_application_id env f) with
    | .error err => (.error err, some f, [.openOp, .readAppId])
    | .ok application_id =>
      if application_id ≠ 0 ∧ application_id ≠ SQLITE_APP_ID then
        (.error .InvalidFileError, some f, [.openOp, .readAppId])
      else
        match into_invalid_or_read_failed (catalog_has_object env f) with
        | .error err => (.error err, some f, [.openOp, .readAppId, .readCatalog])
        | .ok initialized =>
          if !initialized then
            match env.begin_err with
            | some e => (.error (.WriteFailed e), some f,
                [.openOp, .readAppId, .readCatalog, .beginTxn])
            | none =>
              match execute_batch_schema env f with
              | .error e => (.error (.WriteFailed e), some f,
                  [.openOp, .readAppId, .readCatalog, .beginTxn, .execBatch])
              | .ok f2 =>
                match env.commit_err with
                | some e => (.error (.WriteFailed e), some f,
                    [.openOp, .readAppId, .readCatalog, .beginTxn, .execBatch,
                     .commitTxn])
                | none => (.ok { connection := f2 }, some f2,
                    [.openOp, .readAppId, .readCatalog, .beginTxn, .execBatch,
                     .commitTxn])
          else
            (.ok { connection := f }, some f, [.openOp, .readAppId, .readCatalog])

/-- The read of `SELECT user_version FROM pragma_user_version` typed at `u32`:
the engine presents the stored 32-bit header as a signed integer, and
rusqlite's conversion to `u32` fails, with an error carrying no SQLite code,
exactly when that integer is not representable as an unsigned 32-bit value. -/
def read_user_version (err : Option SqliteError) (f : File) :
    Except SqliteError Nat :=
  match f with
  | .notADatabase => .error { code := some .NotADatabase }
  | .container db =>
    match err with
    | some e => .error e
    | none =>
      if 0 ≤ db.user_version ∧ db.user_version < 4294967296 then
        .ok db.user_version.toNat
      else
        .error { code := none }

/-- `AppFile::compare_version`: read the `user_version` header as a `u32` and
three-way compare it against `SQLITE_USER_VERSION`.  Returns the result
together with the (unchanged) handle. -/
def compare_version (err : Option SqliteError) (self : AppFile) :
    Except DbError Ordering × AppFile :=
  match into_read_failed (read_user_version err self.connection) with
  | .error e => (.error e, self)
  | .ok user_version => (.ok (compare user_version SQLITE_USER_VERSION), self)

/-- `AppFile::upgrade`: currently a no-op since there is only one schema
version; always succeeds and leaves the handle unchanged. -/
def upgrade (self : AppFile) : Except DbError Unit × AppFile :=
  (.ok (), self)

/-- The spec's *uninitialized* file state: no tables, both header slots at
their zero defaults. -/
def UninitState (db : DbState) : Prop :=
  db.tables = [] ∧ db.application_id = 0 ∧ db.user_version = 0

/-- The spec's *initialized* file state: application identifier set to the
magic constant, schema version set (non-zero), and the metadata table
present. -/
def InitState (db : DbState) : Prop :=
  db.application_id = SQLITE_APP_ID ∧ db.user_version ≠ 0 ∧
    "app_metadata" ∈ db.tables

instance (db : DbState) : Decidable (UninitState db) := by
  unfold UninitState; infer_instance

instance (db : DbState) : Decidable (InitState db) := by
  unfold InitState; infer_instance

/-- C1: for every path whose file opens as a valid container, `try_open`
accepts the file exactly when the `application_id` header slot equals
`SQLITE_APP_ID` or equals zero; for any other non-zero identifier value it
returns `InvalidFileError`. -/
theorem try_open_app_id_gate (path : String) (db : DbState) :
    ((∃ a, (try_open benign path (some (.container db))).1 = Except.ok a) ↔
      (db.application_id = 0 ∨ db.application_id = SQLITE_APP_ID)) ∧
    ((try_open benign path (some (.container db))).1 =
        Except.error DbError.InvalidFileError ↔
      ¬(db.application_id = 0 ∨ db.application_id = SQLITE_APP_ID)) := by
  by_cases h : db.application_id = 0 ∨ db.application_id = SQLITE_APP_ID
  · have hor := h
    rcases h with h | h <;>
      cases h2 : db.tables.isEmpty <;>
      simp [try_open, benign, open_or_create, query_application_id,
        catalog_has_object, into_invalid_or_read_failed, into_read_failed,
        execute_batch_schema, h, h2, hor, SQLITE_APP_ID]
  · rw [not_or] at h
    simp [try_open, benign, open_or_create, query_application_id,
      into_invalid_or_read_failed, into_read_failed, h.1, h.2]

/-- C2: when the read of the `application_id` header or the catalog check
fails, `try_open` returns `InvalidFileError` exactly when the engine error's
code is `NotADatabase`, and returns `ReadFailed` carrying the cause for every
other failure; in particular a non-container file is rejected as
`InvalidFileError`. -/
theorem try_open_read_error_classification (path : String) (db : DbState)
    (e : SqliteError)
    (hid : db.application_id = 0 ∨ db.application_id = SQLITE_APP_ID) :
    ((try_open { benign with app_id_err := some e } path
        (some (.container db))).1 =
      (if e.code = some ErrorCode.NotADatabase then
        Except.error DbError.InvalidFileError
      else Except.error (DbError.ReadFailed e))) ∧
    ((try_open { benign with catalog_err := some e } path
        (some (.container db))).1 =
      (if e.code = some ErrorCode.NotADatabase then
        Except.error DbError.InvalidFileError
      else Except.error (DbError.ReadFailed e))) ∧
    ((try_open benign path (some .notADatabase)).1 =
      Except.error DbError.InvalidFileError) := by
  refine ⟨?_, ?_, ?_⟩
  · by_cases hc : e.code = some ErrorCode.NotADatabase <;>
      simp [try_open, benign, open_or_create, query_application_id,
        into_invalid_or_read_failed, into_read_failed, hc]
  · rcases hid with h | h <;>
      by_cases hc : e.code = some ErrorCode.NotADatabase <;>
      simp [try_open, benign, open_or_create, query_application_id,
        catalog_has_object, into_invalid_or_read_failed, into_read_failed,
        h, hc, SQLITE_APP_ID]
  · simp [try_open, benign, open_or_create, query_application_id,
      into_invalid_or_read_failed, into_read_failed]

/-- Witness for C2 at a concrete input: the catalog check failing with the
`NotADatabase` code on an accepted empty container yields `InvalidFileError`. -/
theorem try_open_read_error_classification_witness :
    (emptyDb.application_id = 0 ∨ emptyDb.application_id = SQLITE_APP_ID) ∧
    (try_open { benign with
        catalog_err := some { code := some ErrorCode.NotADatabase } } "w"
        (some (.container emptyDb))).1 =
      Except.error DbError.InvalidFileError := by
  refine ⟨Or.inl rfl, ?_⟩
  have h := (try_open_read_error_classification "w" emptyDb
      { code := some ErrorCode.NotADatabase } (Or.inl rfl)).2.1
  simpa using h

/-- C3: opening a brand-new (absent) or empty path succeeds, the
initialization batch sets the `user_version` header to `SQLITE_USER_VERSION`,
and `compare_version` on the resulting handle returns `Equal`. -/
theorem try_open_new_file_sets_version (path : String) (pre : Option File)
    (h : pre = none ∨ pre = some (.container emptyDb)) :
    ∃ a, (try_open benign path pre).1 = Except.ok a ∧
      a.connection = File.container (schema_effect emptyDb) ∧
      (schema_effect emptyDb).user_version = (SQLITE_USER_VERSION : Int) ∧
      (compare_version none a).1 = Except.ok Ordering.eq := by
  rcases h with h | h <;> subst h <;>
    exact ⟨{ connection := .container (schema_effect emptyDb) },
      rfl, rfl, rfl, rfl⟩

/-- Witness for C3 at a concrete input: an absent path. -/
theorem try_open_new_file_sets_version_witness :
    ((none : Option File) = none ∨
      (none : Option File) = some (.container emptyDb)) ∧
    (∃ a, (try_open benign "w3" none).1 = Except.ok a ∧
      a.connection = File.container (schema_effect emptyDb) ∧
      (schema_effect emptyDb).user_version = (SQLITE_USER_VERSION : Int) ∧
      (compare_version none a).1 = Except.ok Ordering.eq) :=
  ⟨Or.inl rfl, try_open_new_file_sets_version "w3" none (Or.inl rfl)⟩

/-- C4: opening an already-initialized file (one whose catalog is non-empty)
with an accepted identifier succeeds, skips the initialization transaction
entirely (the trace holds only the open and the two reads), and leaves the
file unchanged, regardless of the schema version the file reports. -/
theorem try_open_skips_init (path : String) (db : DbState)
    (hid : db.application_id = 0 ∨ db.application_id = SQLITE_APP_ID)
    (htables : db.tables ≠ []) :
    try_open benign path (some (.container db)) =
      (Except.ok { connection := .container db }, some (.container db),
        [.openOp, .readAppId, .readCatalog]) := by
  have h2 : db.tables.isEmpty = false := by
    simpa [List.isEmpty_iff] using htables
  rcases hid with h | h <;>
    simp [try_open, benign, open_or_create, query_application_id,
      catalog_has_object, into_invalid_or_read_failed, into_read_failed,
      h, h2, SQLITE_APP_ID]

/-- Witness for C4 at a concrete input: an initialized file reporting schema
version 7 is returned untouched. -/
theorem try_open_skips_init_witness :
    (((⟨0, 7, ["t"], []⟩ : DbState).application_id = 0 ∨
        (⟨0, 7, ["t"], []⟩ : DbState).application_id = SQLITE_APP_ID) ∧
      (⟨0, 7, ["t"], []⟩ : DbState).tables ≠ []) ∧
    try_open benign "w4" (some (.container ⟨0, 7, ["t"], []⟩)) =
      (Except.ok { connection := .container ⟨0, 7, ["t"], []⟩ },
        some (.container ⟨0, 7, ["t"], []⟩),
        [.openOp, .readAppId, .readCatalog]) :=
  ⟨⟨Or.inl rfl, by decide⟩,
    try_open_skips_init "w4" ⟨0, 7, ["t"], []⟩ (Or.inl rfl) (by decide)⟩

/-- C5: for a handle on a container whose `user_version` header holds a value
representable as an unsigned 32-bit integer, `compare_version` returns `lt`,
`eq` or `gt` exactly as the stored value compares to `SQLITE_USER_VERSION`,
and it never mutates the handle or the file, whatever the engine does. -/
theorem compare_version_trichotomy (a : AppFile) (db : DbState)
    (hconn : a.connection = File.container db)
    (h0 : 0 ≤ db.user_version) (h32 : db.user_version < 4294967296) :
    (∀ e, (compare_version e a).2 = a) ∧
    ((compare_version none a).1 = Except.ok Ordering.lt ↔
      db.user_version < (SQLITE_USER_VERSION : Int)) ∧
    ((compare_version none a).1 = Except.ok Ordering.eq ↔
      db.user_version = (SQLITE_USER_VERSION : Int)) ∧
    ((compare_version none a).1 = Except.ok Ordering.gt ↔
      (SQLITE_USER_VERSION : Int) < db.user_version) := by
  obtain ⟨conn⟩ := a
  cases hconn
  refine ⟨fun e => ?_, ?_, ?_, ?_⟩
  · rcases hr : into_read_failed (read_user_version e (File.container db)) with
      e2 | v <;> simp [compare_version, hr]
  all_goals
    simp [compare_version, read_user_version, into_read_failed, h0, h32,
      SQLITE_USER_VERSION]
  · rw [Nat.compare_eq_lt]; omega
  · rw [Nat.compare_eq_eq]; omega
  · rw [Nat.compare_eq_gt]; omega

/-- Witness for C5 at a concrete input: a handle whose file stores schema
version 1 compares `Equal`. -/
theorem compare_version_trichotomy_witness :
    (({ connection := File.container ⟨SQLITE_APP_ID, 1, ["app_metadata"], []⟩ } :
        AppFile).connection =
        File.container ⟨SQLITE_APP_ID, 1, ["app_metadata"], []⟩ ∧
      (0 : Int) ≤ (⟨SQLITE_APP_ID, 1, ["app_metadata"], []⟩ : DbState).user_version ∧
      (⟨SQLITE_APP_ID, 1, ["app_metadata"], []⟩ : DbState).user_version <
        4294967296) ∧
    (compare_version none
        { connection := File.container ⟨SQLITE_APP_ID, 1, ["app_metadata"], []⟩ }).1 =
      Except.ok Ordering.eq :=
  ⟨⟨rfl, by decide, by decide⟩,
    ((compare_version_trichotomy
        { connection := File.container ⟨SQLITE_APP_ID, 1, ["app_metadata"], []⟩ }
        ⟨SQLITE_APP_ID, 1, ["app_metadata"], []⟩ rfl (by decide)
        (by decide)).2.2.1).mpr rfl⟩

/-- C6: `upgrade` always succeeds and leaves the handle (hence the file and
its `user_version` header) unchanged, whatever version the file holds. -/
theorem upgrade_is_noop (a : AppFile) : upgrade a = (Except.ok (), a) := rfl

/-- C7: when the initialization transaction fails — at begin, statement
execution, or commit — `try_open` returns `WriteFailed` carrying the cause and
the rolled-back file is exactly the file as opened, with no partial
initialization effects. -/
theorem try_open_write_failure_atomic (path : String) (db : DbState)
    (e : SqliteError)
    (hid : db.application_id = 0 ∨ db.application_id = SQLITE_APP_ID)
    (htables : db.tables = []) :
    (try_open { benign with begin_err := some e } path (some (.container db)) =
      (.error (.WriteFailed e), some (.container db),
        [.openOp, .readAppId, .readCatalog, .beginTxn])) ∧
    (try_open { benign with exec_err := some e } path (some (.container db)) =
      (.error (.WriteFailed e), some (.container db),
        [.openOp, .readAppId, .readCatalog, .beginTxn, .execBatch])) ∧
    (try_open { benign with commit_err := some e } path (some (.container db)) =
      (.error (.WriteFailed e), some (.container db),
        [.openOp, .readAppId, .readCatalog, .beginTxn, .execBatch,
         .commitTxn])) := by
  have h2 : db.tables.isEmpty = true := by simp [htables]
  rcases hid with h | h <;>
    refine ⟨?_, ?_, ?_⟩ <;>
    simp [try_open, benign, open_or_create, query_application_id,
      catalog_has_object, into_invalid_or_read_failed, into_read_failed,
      execute_batch_schema, h, h2, SQLITE_APP_ID]

/-- Witness for C7 at a concrete input: statement execution failing on a
brand-new empty file. -/
theorem try_open_write_failure_atomic_witness :
    ((emptyDb.application_id = 0 ∨ emptyDb.application_id = SQLITE_APP_ID) ∧
      emptyDb.tables = []) ∧
    try_open { benign with exec_err := some { code := none } } "w7"
        (some (.container emptyDb)) =
      (.error (.WriteFailed { code := none }), some (.container emptyDb),
        [.openOp, .readAppId, .readCatalog, .beginTxn, .execBatch]) :=
  ⟨⟨Or.inl rfl, rfl⟩,
    (try_open_write_failure_atomic "w7" emptyDb { code := none }
      (Or.inl rfl) rfl).2.1⟩

/-- Helper: an engine error put through `into_invalid_or_read_failed` is
always some `DbError`, never a success. -/
theorem into_invalid_or_read_failed_error {T : Type} (e : SqliteError) :
    ∃ d, into_invalid_or_read_failed (T := T) (.error e) = .error d := by
  by_cases hc : e.code = some ErrorCode.NotADatabase <;>
    simp [into_invalid_or_read_failed, into_read_failed, hc]

/-- C8: starting from an absent path or a file in one of the spec's two
states, any successful `try_open` — whatever the engine does — leaves the file
in exactly one of the two states (in fact the initialized one), and the
returned handle is connected to that file. -/
theorem try_open_two_state_invariant (env : Env) (path : String)
    (pre : Option File)
    (hpre : pre = none ∨ ∃ db, pre = some (.container db) ∧
      (UninitState db ∨ InitState db))
    (a : AppFile) (h : (try_open env path pre).1 = Except.ok a) :
    ∃ db2, (try_open env path pre).2.1 = some (.container db2) ∧
      (UninitState db2 ∨ InitState db2) ∧
      ¬(UninitState db2 ∧ InitState db2) ∧
      a.connection = File.container db2 := by
  have hf : ∃ db0, open_or_create pre = File.container db0 ∧
      (UninitState db0 ∨ InitState db0) := by
    rcases hpre with rfl | ⟨db, rfl, hdb⟩
    · exact ⟨emptyDb, rfl, Or.inl (by decide)⟩
    · exact ⟨db, rfl, hdb⟩
  obtain ⟨db0, hf0, hdb0⟩ := hf
  cases ho : env.open_err with
  | some e => simp [try_open, ho] at h
  | none =>
  cases hai : env.app_id_err with
  | some e =>
    obtain ⟨d, hd⟩ := into_invalid_or_read_failed_error (T := Int) e
    simp [try_open, ho, hf0, query_application_id, hai, hd] at h
  | none =>
  rcases hdb0 with hU | hI
  · obtain ⟨ht, ha0, hv⟩ := hU
    cases hc : env.catalog_err with
    | some e =>
      by_cases hec : e.code = some ErrorCode.NotADatabase <;>
        simp [try_open, ho, hf0, query_application_id, hai, catalog_has_object,
          hc, hec, ha0, into_invalid_or_read_failed, into_read_failed] at h
    | none =>
    cases hb : env.begin_err with
    | some e =>
      simp [try_open, ho, hf0, query_application_id, hai, catalog_has_object,
        hc, ha0, ht, into_invalid_or_read_failed, into_read_failed, hb] at h
    | none =>
    cases hex : env.exec_err with
    | some e =>
      simp [try_open, ho, hf0, query_application_id, hai, catalog_has_object,
        hc, ha0, ht, into_invalid_or_read_failed, into_read_failed, hb,
        execute_batch_schema, hex] at h
    | none =>
    cases hcm : env.commit_err with
    | some e =>
      simp [try_open, ho, hf0, query_application_id, hai, catalog_has_object,
        hc, ha0, ht, into_invalid_or_read_failed, into_read_failed, hb,
        execute_batch_schema, hex, hcm] at h
    | none =>
      refine ⟨schema_effect db0, ?_, Or.inr ?_, ?_, ?_⟩
      · simp [try_open, ho, hf0, query_application_id, hai, catalog_has_object,
          hc, ha0, ht, into_invalid_or_read_failed, into_read_failed, hb,
          execute_batch_schema, hex, hcm]
      · refine ⟨rfl, ?_, ?_⟩ <;> simp [schema_effect, SQLITE_USER_VERSION]
      · rintro ⟨⟨htab, -, -⟩, -⟩
        simp [schema_effect] at htab
      · simp [try_open, ho, hf0, query_application_id, hai, catalog_has_object,
          hc, ha0, ht, into_invalid_or_read_failed, into_read_failed, hb,
          execute_batch_schema, hex, hcm] at h
        subst h
        rfl
  · obtain ⟨haI, hvI, htI⟩ := hI
    have hne : db0.tables ≠ [] := by
      intro hnil
      rw [hnil] at htI
      simp at htI
    have hemp : db0.tables.isEmpty = false := by
      simpa [List.isEmpty_iff] using hne
    cases hc : env.catalog_err with
    | some e =>
      by_cases hec : e.code = some ErrorCode.NotADatabase <;>
        simp [try_open, ho, hf0, query_application_id, hai, catalog_has_object,
          hc, hec, haI, SQLITE_APP_ID, into_invalid_or_read_failed,
          into_read_failed] at h
    | none =>
      refine ⟨db0, ?_, Or.inr ⟨haI, hvI, htI⟩, ?_, ?_⟩
      · simp [try_open, ho, hf0, query_application_id, hai, catalog_has_object,
          hc, haI, hemp, into_invalid_or_read_failed, into_read_failed,
          SQLITE_APP_ID]
      · rintro ⟨⟨htab, -, -⟩, -⟩
        exact hne htab
      · simp [try_open, ho, hf0, query_application_id, hai, catalog_has_object,
          hc, haI, hemp, into_invalid_or_read_failed, into_read_failed,
          SQLITE_APP_ID] at h
        subst h
        rfl

/-- Witness for C8 at a concrete input: opening an absent path. -/
theorem try_open_two_state_invariant_witness :
    (((none : Option File) = none ∨ ∃ db, (none : Option File) =
        some (.container db) ∧ (UninitState db ∨ InitState db)) ∧
      (try_open benign "w8" none).1 =
        Except.ok { connection := File.container (schema_effect emptyDb) }) ∧
    ∃ db2, (try_open benign "w8" none).2.1 = some (.container db2) ∧
      (UninitState db2 ∨ InitState db2) ∧
      ¬(UninitState db2 ∧ InitState db2) ∧
      ({ connection := File.container (schema_effect emptyDb) } :
        AppFile).connection = File.container db2 :=
  ⟨⟨Or.inl rfl, rfl⟩,
    try_open_two_state_invariant benign "w8" none (Or.inl rfl) _ rfl⟩

/-- C9: a `try_open` that fails with `InvalidFileError` or `ReadFailed` — the
outcomes of the identity and initialization-state checks — has performed no
write operation and leaves the file exactly as it was. -/
theorem try_open_no_write_on_reject (env : Env) (path : String) (f : File)
    (h : (try_open env path (some f)).1 =
        Except.error DbError.InvalidFileError ∨
      ∃ e, (try_open env path (some f)).1 =
        Except.error (DbError.ReadFailed e)) :
    (try_open env path (some f)).2.1 = some f ∧
      ∀ op ∈ (try_open env path (some f)).2.2, op.isWrite = false := by
  cases ho : env.open_err with
  | some e => simp [try_open, ho] at h
  | none =>
  cases f with
  | notADatabase =>
    simp [try_open, ho, open_or_create, query_application_id,
      into_invalid_or_read_failed, into_read_failed, Op.isWrite]
  | container db =>
  cases hai : env.app_id_err with
  | some e =>
    by_cases hec : e.code = some ErrorCode.NotADatabase <;>
      simp [try_open, ho, hai, open_or_create, query_application_id,
        into_invalid_or_read_failed, into_read_failed, hec, Op.isWrite]
  | none =>
  by_cases happ : db.application_id ≠ 0 ∧ db.application_id ≠ SQLITE_APP_ID
  · simp [try_open, ho, hai, open_or_create, query_application_id,
      into_invalid_or_read_failed, into_read_failed, happ, Op.isWrite]
  · cases hc : env.catalog_err with
    | some e =>
      by_cases hec : e.code = some ErrorCode.NotADatabase <;>
        simp [try_open, ho, hai, hc, open_or_create, query_application_id,
          catalog_has_object, into_invalid_or_read_failed, into_read_failed,
          happ, hec, Op.isWrite]
    | none =>
    cases ht : db.tables.isEmpty with
    | false =>
      simp [try_open, ho, hai, hc, open_or_create, query_application_id,
        catalog_has_object, into_invalid_or_read_failed, into_read_failed,
        happ, ht, Op.isWrite] at h
    | true =>
    cases hb : env.begin_err with
    | some e =>
      simp [try_open, ho, hai, hc, hb, open_or_create, query_application_id,
        catalog_has_object, into_invalid_or_read_failed, into_read_failed,
        happ, ht] at h
    | none =>
    cases hex : env.exec_err with
    | some e =>
      simp [try_open, ho, hai, hc, hb, hex, open_or_create,
        query_application_id, catalog_has_object, execute_batch_schema,
        into_invalid_or_read_failed, into_read_failed, happ, ht] at h
    | none =>
    cases hcm : env.commit_err with
    | some e =>
      simp [try_open, ho, hai, hc, hb, hex, hcm, open_or_create,
        query_application_id, catalog_has_object, execute_batch_schema,
        into_invalid_or_read_failed, into_read_failed, happ, ht] at h
    | none =>
      simp [try_open, ho, hai, hc, hb, hex, hcm, open_or_create,
        query_application_id, catalog_has_object, execute_batch_schema,
        into_invalid_or_read_failed, into_read_failed, happ, ht] at h

/-- Witness for C9 at a concrete input: a container carrying the foreign
identifier 123 is rejected untouched, with no write in the trace. -/
theorem try_open_no_write_on_reject_witness :
    ((try_open benign "w9" (some (.container ⟨123, 0, [], []⟩))).1 =
        Except.error DbError.InvalidFileError ∨
      ∃ e, (try_open benign "w9" (some (.container ⟨123, 0, [], []⟩))).1 =
        Except.error (DbError.ReadFailed e)) ∧
    ((try_open benign "w9" (some (.container ⟨123, 0, [], []⟩))).2.1 =
        some (.container ⟨123, 0, [], []⟩) ∧
      ∀ op ∈ (try_open benign "w9" (some (.container ⟨123, 0, [], []⟩))).2.2,
        op.isWrite = false) :=
  ⟨Or.inl rfl,
    try_open_no_write_on_reject benign "w9" (.container ⟨123, 0, [], []⟩)
      (Or.inl rfl)⟩

/-- C10: when the stored `user_version` header value is not representable as
an unsigned 32-bit integer (for example a negative value written externally),
`compare_version` returns `ReadFailed` rather than an ordering, and the
handle is unchanged. -/
theorem compare_version_unrepresentable (a : AppFile) (db : DbState)
    (hconn : a.connection = File.container db)
    (h : db.user_version < 0 ∨ 4294967296 ≤ db.user_version) :
    compare_version none a =
      (Except.error (DbError.ReadFailed { code := none }), a) := by
  obtain ⟨conn⟩ := a
  cases hconn
  have hcond : ¬(0 ≤ db.user_version ∧ db.user_version < 4294967296) := by
    omega
  simp [compare_version, read_user_version, into_read_failed, hcond]

/-- Witness for C10 at a concrete input: a file whose `user_version` header
holds -1. -/
theorem compare_version_unrepresentable_witness :
    (({ connection := File.container ⟨0, -1, [], []⟩ } : AppFile).connection =
        File.container ⟨0, -1, [], []⟩ ∧
      ((⟨0, -1, [], []⟩ : DbState).user_version < 0 ∨
        4294967296 ≤ (⟨0, -1, [], []⟩ : DbState).user_version)) ∧
    compare_version none { connection := File.container ⟨0, -1, [], []⟩ } =
      (Except.error (DbError.ReadFailed { code := none }),
        { connection := File.container ⟨0, -1, [], []⟩ }) :=
  ⟨⟨rfl, Or.inl (by decide)⟩,
    compare_version_unrepresentable _ _ rfl (Or.inl (by decide))⟩
